import Mathlib

/-!
Shallow embedding of the rdash terminal dashboard (src/ui.rs, src/config.rs).

The interaction core is pure state transformation over a `Dashboard` record;
the effectful collaborators (process spawning, config persistence, config
loading) are passed in as explicit oracle values describing the outcome the
environment produced (`SpawnResult`, `Option String` for a save error,
`Except String Config` for a load result).  Terminal drawing is I/O and is
not part of the state; the only rendering artifact modelled is the static
`help_lines` text of `draw_help_screen`, which documents the intended
help-mode behaviour.
-/

namespace RDash

/-- Code-point comparison of character lists; embeds the byte-lexicographic
`Ord` on Rust `String` (UTF-8 byte order agrees with code-point order). -/
def charListLe : List Char → List Char → Bool
  | [], _ => true
  | _ :: _, [] => false
  | a :: as, b :: bs =>
    if a.toNat < b.toNat then true
    else if b.toNat < a.toNat then false
    else charListLe as bs

/-- Embeds `a.cmp(&b) != Greater` for Rust strings. -/
def string_le (a b : String) : Bool := charListLe a.data b.data

/-- `ProgramEntry` from src/config.rs. -/
structure ProgramEntry where
  name : String
  display_name : String
  command : String
  args : List String
  description : Option String
  run_with_sudo : Bool
  show_output : Bool
deriving DecidableEq

/-- `Config` from src/config.rs: the `HashMap<String, ProgramEntry>` is
modelled as an association list of key/entry pairs. -/
structure Config where
  programs : List (String × ProgramEntry)
deriving DecidableEq

/-- `Config::add_program`: `self.programs.insert(entry.name.clone(), entry)`,
i.e. overwrite the value at an existing key, else add a new binding. -/
def Config.add_program (c : Config) (entry : ProgramEntry) : Config :=
  if c.programs.any (fun p => p.1 = entry.name) then
    ⟨c.programs.map (fun p => if p.1 = entry.name then (entry.name, entry) else p)⟩
  else
    ⟨c.programs ++ [(entry.name, entry)]⟩

/-- `Config::remove_program`: `self.programs.remove(name).is_some()`,
returning whether a binding was removed together with the new map. -/
def Config.remove_program (c : Config) (name : String) : Bool × Config :=
  (c.programs.any (fun p => p.1 = name),
   ⟨c.programs.filter (fun p => ¬ p.1 = name)⟩)

/-- One step of the stable sort used by `Config::get_programs`
(`sort_by(|a, b| a.display_name.cmp(&b.display_name))`). -/
def insertByName (p : ProgramEntry) : List ProgramEntry → List ProgramEntry
  | [] => [p]
  | q :: l =>
    if string_le p.display_name q.display_name then p :: q :: l
    else q :: insertByName p l

/-- Stable sort by `display_name`, embedding the `sort_by` call in
`Config::get_programs`. -/
def sortByDisplayName (l : List ProgramEntry) : List ProgramEntry :=
  l.foldr insertByName []

/-- `Config::get_programs`: the values of the map, sorted by `display_name`. -/
def Config.get_programs (c : Config) : List ProgramEntry :=
  sortByDisplayName (c.programs.map Prod.snd)

/-- Well-formedness the Rust `HashMap` guarantees for `Config`: keys are
distinct, and every stored entry is keyed by its own `name` (the only insert
path is `add_program`, which uses `entry.name` as the key). -/
def Config.wf (c : Config) : Prop :=
  (c.programs.map Prod.fst).Nodup ∧ ∀ p ∈ c.programs, p.2.name = p.1

instance (c : Config) : Decidable (Config.wf c) := by
  unfold Config.wf; infer_instance

/-- `AddProgramForm` from src/ui.rs. -/
structure AddProgramForm where
  step : Nat
  name : String
  display_name : String
  command : String
  args : String
  description : String
  run_with_sudo : Bool
  show_output : Bool
deriving DecidableEq

/-- `AddProgramForm::new` (also the target of `reset`). -/
def AddProgramForm.new : AddProgramForm :=
  ⟨0, "", "", "", "", "", false, false⟩

/-- `AddProgramForm::current_value`. -/
def AddProgramForm.current_value (f : AddProgramForm) : String :=
  match f.step with
  | 0 => f.name
  | 1 => f.display_name
  | 2 => f.command
  | 3 => f.args
  | 4 => f.description
  | 5 => if f.run_with_sudo then "y" else "n"
  | 6 => if f.show_output then "y" else "n"
  | _ => ""

/-- Embeds `value.to_lowercase().starts_with('y')` from
`AddProgramForm::set_current_value`: the first character of the lowercased
string is `y` exactly when the first character lowercases to `y`. -/
def starts_with_y (value : String) : Bool :=
  match value.data with
  | [] => false
  | c :: _ => c.toLower = 'y'

/-- `AddProgramForm::set_current_value`. -/
def AddProgramForm.set_current_value (f : AddProgramForm) (value : String) :
    AddProgramForm :=
  match f.step with
  | 0 => { f with name := value }
  | 1 => { f with display_name := value }
  | 2 => { f with command := value }
  | 3 => { f with args := value }
  | 4 => { f with description := value }
  | 5 => { f with run_with_sudo := starts_with_y value }
  | 6 => { f with show_output := starts_with_y value }
  | _ => f

/-- `AddProgramForm::is_complete`. -/
def AddProgramForm.is_complete (f : AddProgramForm) : Bool :=
  !f.name.isEmpty && !f.display_name.isEmpty && !f.command.isEmpty

/-- `Mode` from src/ui.rs. -/
inductive Mode where
  | Normal
  | AddProgram
  | Help
  | ShowOutput
deriving DecidableEq

/-- The key events the handlers in src/ui.rs distinguish; `other` stands for
every `KeyCode` the source matches with its catch-all `_` arm. -/
inductive KeyCode where
  | char (c : Char)
  | enter
  | esc
  | backspace
  | down
  | up
  | other
deriving DecidableEq

/-- Oracle for the outcome of spawning the selected program: either the
child ran (with its captured stdout/stderr text and exit-status success
flag) or the spawn itself failed with an error message. -/
inductive SpawnResult where
  | ok (stdout stderr : String) (success : Bool)
  | err (e : String)
deriving DecidableEq

/-- `Dashboard` from src/ui.rs. -/
structure Dashboard where
  config : Config
  selected_index : Nat
  mode : Mode
  add_form : AddProgramForm
  status_message : Option String
  output_data : Option (String × String)
deriving DecidableEq

/-- Embeds Rust `str::split_whitespace`: maximal runs of non-whitespace
characters, with no empty tokens. -/
def split_whitespace_go : List Char → List Char → List String
  | [], cur => if cur.isEmpty then [] else [String.mk cur.reverse]
  | c :: rest, cur =>
    if c.isWhitespace then
      if cur.isEmpty then split_whitespace_go rest []
      else String.mk cur.reverse :: split_whitespace_go rest []
    else split_whitespace_go rest (c :: cur)

/-- Rust `str::split_whitespace` collected to a vector. -/
def split_whitespace (s : String) : List String := split_whitespace_go s.data []

/-- The `ProgramEntry` literal constructed in `Dashboard::save_new_program`
(src/ui.rs lines 372-390). -/
def build_entry (form : AddProgramForm) : ProgramEntry :=
  { name := form.name
    display_name := form.display_name
    command := form.command
    args := if form.args.isEmpty then [] else split_whitespace form.args
    description := if form.description.isEmpty then none else some form.description
    run_with_sudo := form.run_with_sudo
    show_output := form.show_output }

/-- The `combined_output` computation in `Dashboard::launch_selected_program`
(src/ui.rs lines 284-290). -/
def combined_output (stdout stderr : String) : String :=
  if stderr.isEmpty then stdout
  else if stdout.isEmpty then stderr
  else "STDOUT:\n" ++ stdout ++ "\n\nSTDERR:\n" ++ stderr

/-- `Dashboard::launch_selected_program`, with the process outcome supplied
by the `spawn` oracle.  Terminal raw-mode toggling in the foreground branch
is I/O and leaves the `Dashboard` state untouched. -/
def launch_selected_program (d : Dashboard) (spawn : SpawnResult) : Dashboard :=
  match d.config.get_programs[d.selected_index]? with
  | none => d
  | some program =>
    if program.show_output then
      match spawn with
      | SpawnResult.ok stdout stderr success =>
        let status := if success
          then "Executed: " ++ program.display_name
          else "Executed with errors: " ++ program.display_name
        { d with
          output_data := some (program.display_name, combined_output stdout stderr),
          mode := Mode.ShowOutput,
          status_message := some status }
      | SpawnResult.err e =>
        let status := "Error launching " ++ program.display_name ++ ": " ++ e
        { d with status_message := some status }
    else
      match spawn with
      | SpawnResult.ok _ _ success =>
        let status := if success
          then "Executed: " ++ program.display_name
          else "Failed to execute: " ++ program.display_name
        { d with status_message := some status }
      | SpawnResult.err e =>
        let status := "Error launching " ++ program.display_name ++ ": " ++ e
        { d with status_message := some status }

/-- `Dashboard::delete_selected_program`; `saveErr` is the outcome of
`Config::save` (`none` = success, `some e` = the persistence error). -/
def delete_selected_program (d : Dashboard) (saveErr : Option String) : Dashboard :=
  match d.config.get_programs[d.selected_index]? with
  | none => d
  | some program =>
    let result := d.config.remove_program program.name
    if result.1 then
      match saveErr with
      | some e =>
        { d with config := result.2,
                 status_message := some ("Error saving config: " ++ e) }
      | none =>
        let d2 := { d with config := result.2,
                           status_message := some ("Deleted: " ++ program.display_name) }
        let new_len := d2.config.get_programs.length
        if 0 < new_len ∧ new_len ≤ d2.selected_index then
          { d2 with selected_index := new_len - 1 }
        else d2
    else d

/-- `Dashboard::save_new_program`; `saveErr` is the outcome of `Config::save`. -/
def save_new_program (d : Dashboard) (saveErr : Option String) : Dashboard :=
  let entry := build_entry d.add_form
  let config2 := d.config.add_program entry
  let status := match saveErr with
    | some e => "Error saving config: " ++ e
    | none => "Added: " ++ d.add_form.display_name
  { d with config := config2,
           status_message := some status,
           add_form := AddProgramForm.new }

/-- `Dashboard::reload_config`; `loaded` is the outcome of `Config::load`. -/
def reload_config (d : Dashboard) (loaded : Except String Config) : Dashboard :=
  match loaded with
  | Except.ok config =>
    { d with config := config,
             selected_index := 0,
             status_message := some "Configuration reloaded" }
  | Except.error e =>
    { d with status_message := some ("Error reloading config: " ++ e) }

/-- The `j`/Down arm of `Dashboard::handle_normal_mode`. -/
def move_down (d : Dashboard) : Dashboard :=
  let programs := d.config.get_programs
  if programs.isEmpty then d
  else { d with selected_index := (d.selected_index + 1) % programs.length }

/-- The `k`/Up arm of `Dashboard::handle_normal_mode`. -/
def move_up (d : Dashboard) : Dashboard :=
  let programs := d.config.get_programs
  if programs.isEmpty then d
  else { d with selected_index :=
      if d.selected_index = 0 then programs.length - 1 else d.selected_index - 1 }

/-- `Dashboard::handle_normal_mode`: the new state plus the quit flag. -/
def handle_normal_mode (d : Dashboard) (key : KeyCode) (spawn : SpawnResult)
    (saveErr : Option String) (loaded : Except String Config) : Dashboard × Bool :=
  match key with
  | KeyCode.char 'q' => (d, true)
  | KeyCode.esc => (d, true)
  | KeyCode.char 'j' => (move_down d, false)
  | KeyCode.down => (move_down d, false)
  | KeyCode.char 'k' => (move_up d, false)
  | KeyCode.up => (move_up d, false)
  | KeyCode.enter => (launch_selected_program d spawn, false)
  | KeyCode.char 'a' =>
    ({ d with mode := Mode.AddProgram, add_form := AddProgramForm.new }, false)
  | KeyCode.char 'd' => (delete_selected_program d saveErr, false)
  | KeyCode.char 'h' => ({ d with mode := Mode.Help }, false)
  | KeyCode.char 'r' => (reload_config d loaded, false)
  | _ => (d, false)

/-- `Dashboard::handle_add_program_mode`. -/
def handle_add_program_mode (d : Dashboard) (key : KeyCode)
    (saveErr : Option String) : Dashboard :=
  match key with
  | KeyCode.esc => { d with mode := Mode.Normal, add_form := AddProgramForm.new }
  | KeyCode.enter =>
    if d.add_form.step < 7 then
      if d.add_form.step < 6 ∨ d.add_form.is_complete = true then
        let d2 := { d with add_form := { d.add_form with step := d.add_form.step + 1 } }
        if d2.add_form.step = 7 then
          { save_new_program d2 saveErr with mode := Mode.Normal }
        else d2
      else d
    else d
  | KeyCode.backspace =>
    if d.add_form.step < 7 then
      { d with add_form :=
          d.add_form.set_current_value ((d.add_form.current_value).dropRight 1) }
    else d
  | KeyCode.char c =>
    if d.add_form.step < 7 then
      if d.add_form.step = 5 ∨ d.add_form.step = 6 then
        if c = 'y' ∨ c = 'Y' ∨ c = 'n' ∨ c = 'N' then
          { d with add_form := d.add_form.set_current_value (String.singleton c) }
        else d
      else
        { d with add_form :=
            d.add_form.set_current_value ((d.add_form.current_value).push c) }
    else d
  | _ => d

/-- `Dashboard::handle_help_mode`. -/
def handle_help_mode (d : Dashboard) (key : KeyCode) : Dashboard :=
  match key with
  | KeyCode.esc => { d with mode := Mode.Normal }
  | KeyCode.char 'q' => { d with mode := Mode.Normal }
  | KeyCode.char 'h' => { d with mode := Mode.Normal }
  | _ => d

/-- `Dashboard::handle_show_output_mode`. -/
def handle_show_output_mode (d : Dashboard) (key : KeyCode) : Dashboard :=
  match key with
  | KeyCode.esc => { d with mode := Mode.Normal, output_data := none }
  | KeyCode.char ' ' => { d with mode := Mode.Normal, output_data := none }
  | KeyCode.char 'q' => { d with mode := Mode.Normal, output_data := none }
  | _ => d

/-- The static text block of `Dashboard::draw_help_screen` (src/ui.rs
lines 627-650). -/
def help_lines : List String := [
  "",
  "RDash - Vim-like Server Dashboard",
  "",
  "NAVIGATION:",
  "  [ j ] [ ↓ ]        Move down",
  "  [ k ] [ ↑ ]        Move up",
  "  [ Enter ]          Launch selected program",
  "",
  "PROGRAM MANAGEMENT:",
  "  [ a ]              Add new program",
  "  [ d ]              Delete selected program",
  "  [ r ]              Reload configuration",
  "",
  "OTHER:",
  "  [ h ] [ F1 ]       Show this help",
  "  [ q ] [ Esc ]      Quit",
  "",
  "CONFIGURATION:",
  "  Config file: ~/.config/rdash/config.json",
  "  You can edit this file manually to modify programs",
  "",
  "Press any key to return..."]

/-- A sample entry ("alpha"), used as concrete input for witnesses. -/
def entryA : ProgramEntry := ⟨"alpha", "Alpha", "alpha-cmd", [], none, false, false⟩

/-- A sample entry ("beta") with output capturing on, for witnesses. -/
def entryB : ProgramEntry := ⟨"beta", "Beta", "beta-cmd", [], none, false, true⟩

/-- A two-program configuration, for witnesses. -/
def configAB : Config := ⟨[("alpha", entryA), ("beta", entryB)]⟩

/-- Browse-mode dashboard over `configAB` with the last program selected. -/
def dashAB : Dashboard := ⟨configAB, 1, Mode.Normal, AddProgramForm.new, none, none⟩

/-- Dashboard with an empty store, for witnesses. -/
def dashEmpty : Dashboard := ⟨⟨[]⟩, 0, Mode.Normal, AddProgramForm.new, none, none⟩

/-- Help-mode dashboard, for the help-mode key evidence. -/
def dashHelp : Dashboard := ⟨configAB, 0, Mode.Help, AddProgramForm.new, none, none⟩

/-- Wizard-mode dashboard sitting at the sudo step with the flag on. -/
def dashWizSudo : Dashboard :=
  ⟨configAB, 0, Mode.AddProgram,
   { AddProgramForm.new with step := 5, run_with_sudo := true }, none, none⟩

/-- Wizard-mode dashboard at step 6 with all required fields filled. -/
def dashWizFull : Dashboard :=
  ⟨⟨[]⟩, 0, Mode.AddProgram, ⟨6, "tid", "T", "true", "", "", false, false⟩, none, none⟩

lemma isEmpty_eq_false {s : String} (h : ¬ s = "") : s.isEmpty = false := by
  rw [Bool.eq_false_iff]
  intro hx
  exact h ((String.isEmpty_iff (s := s)).mp hx)

lemma isEmpty_eq_decide (s : String) : s.isEmpty = decide (s = "") := by
  by_cases h : s = ""
  · subst h
    rfl
  · rw [isEmpty_eq_false h, eq_comm]
    exact decide_eq_false h

lemma length_insertByName (p : ProgramEntry) (l : List ProgramEntry) :
    (insertByName p l).length = l.length + 1 := by
  induction l with
  | nil => rfl
  | cons q l ih =>
    simp only [insertByName]
    split
    · simp
    · simp [ih]

lemma length_sortByDisplayName (l : List ProgramEntry) :
    (sortByDisplayName l).length = l.length := by
  induction l with
  | nil => rfl
  | cons p l ih =>
    show (insertByName p (sortByDisplayName l)).length = l.length + 1
    rw [length_insertByName, ih]

lemma mem_insertByName {q p : ProgramEntry} {l : List ProgramEntry} :
    q ∈ insertByName p l ↔ q = p ∨ q ∈ l := by
  induction l with
  | nil => simp [insertByName]
  | cons r l ih =>
    simp only [insertByName]
    split
    · simp [List.mem_cons]
    · simp [List.mem_cons, ih]
      tauto

lemma mem_sortByDisplayName {q : ProgramEntry} {l : List ProgramEntry} :
    q ∈ sortByDisplayName l ↔ q ∈ l := by
  induction l with
  | nil => simp [sortByDisplayName]
  | cons p l ih =>
    show q ∈ insertByName p (sortByDisplayName l) ↔ _
    rw [mem_insertByName, ih]
    simp [List.mem_cons]

lemma mem_get_programs {q : ProgramEntry} {c : Config} :
    q ∈ c.get_programs ↔ q ∈ c.programs.map Prod.snd := by
  unfold Config.get_programs
  exact mem_sortByDisplayName

lemma get_programs_length (c : Config) : c.get_programs.length = c.programs.length := by
  unfold Config.get_programs
  rw [length_sortByDisplayName, List.length_map]

/-- Claim C2: for every captured launch whose spawn succeeds, the displayed
combined text is the stdout text exactly when stderr is empty; else the
stderr text exactly when stdout is empty; else the concatenation
"STDOUT:\n{stdout}\n\nSTDERR:\n{stderr}"; mode moves to ShowOutput.  In
particular stdout="A", stderr="" yields "A"; stdout="", stderr="B" yields
"B"; stdout="A", stderr="B" yields "STDOUT:\nA\n\nSTDERR:\nB". -/
theorem claim_C2 (d : Dashboard) (p : ProgramEntry) (stdout stderr : String)
    (success : Bool)
    (hp : d.config.get_programs[d.selected_index]? = some p)
    (hcap : p.show_output = true) :
    (launch_selected_program d (SpawnResult.ok stdout stderr success)).output_data =
      some (p.display_name,
        if stderr = "" then stdout
        else if stdout = "" then stderr
        else "STDOUT:\n" ++ stdout ++ "\n\nSTDERR:\n" ++ stderr) ∧
    (launch_selected_program d (SpawnResult.ok stdout stderr success)).mode =
      Mode.ShowOutput ∧
    combined_output "A" "" = "A" ∧
    combined_output "" "B" = "B" ∧
    combined_output "A" "B" = "STDOUT:\nA\n\nSTDERR:\nB" := by
  have hco : combined_output stdout stderr =
      if stderr = "" then stdout
      else if stdout = "" then stderr
      else "STDOUT:\n" ++ stdout ++ "\n\nSTDERR:\n" ++ stderr := by
    simp only [combined_output, isEmpty_eq_decide]
    simp
  refine ⟨?_, ?_, by decide, by decide, by decide⟩
  · simp [launch_selected_program, hp, hcap, hco]
  · simp [launch_selected_program, hp, hcap]

/-- Witness for C2 at a concrete captured launch of `entryB`. -/
theorem claim_C2_witness :
    (launch_selected_program dashAB (SpawnResult.ok "A" "B" true)).output_data =
      some (entryB.display_name,
        if ("B" : String) = "" then "A"
        else if ("A" : String) = "" then "B"
        else "STDOUT:\n" ++ "A" ++ "\n\nSTDERR:\n" ++ "B") :=
  (claim_C2 dashAB entryB "A" "B" true (by decide) (by decide)).1

/-- Claim C5 (code bug evidence): the help screen itself says "Press any key
to return...", yet in Help mode the Space key (and any key other than Esc,
`q`, `h`) leaves the dashboard in Help mode; only Esc and `q` (and `h`)
return to Browse. -/
theorem claim_C5 :
    "Press any key to return..." ∈ help_lines ∧
    (handle_help_mode dashHelp (KeyCode.char ' ')).mode = Mode.Help ∧
    handle_help_mode dashHelp (KeyCode.char ' ') = dashHelp ∧
    handle_help_mode dashHelp (KeyCode.char 'x') = dashHelp ∧
    (handle_help_mode dashHelp KeyCode.esc).mode = Mode.Normal ∧
    (handle_help_mode dashHelp (KeyCode.char 'q')).mode = Mode.Normal := by
  decide

/-- Claim C7: a captured launch whose spawn fails only sets the status text
to "Error launching {display_name}: {error}"; the mode stays as it was and
no output record is created. -/
theorem claim_C7 (d : Dashboard) (p : ProgramEntry) (e : String)
    (hp : d.config.get_programs[d.selected_index]? = some p)
    (hcap : p.show_output = true) :
    launch_selected_program d (SpawnResult.err e) =
      { d with status_message := some ("Error launching " ++ p.display_name ++ ": " ++ e) } ∧
    (launch_selected_program d (SpawnResult.err e)).mode = d.mode ∧
    (launch_selected_program d (SpawnResult.err e)).output_data = d.output_data := by
  have h1 : launch_selected_program d (SpawnResult.err e) =
      { d with status_message := some ("Error launching " ++ p.display_name ++ ": " ++ e) } := by
    simp [launch_selected_program, hp, hcap]
  refine ⟨h1, ?_, ?_⟩ <;> rw [h1]

/-- Witness for C7: failing spawn of `entryB` on the concrete dashboard. -/
theorem claim_C7_witness :
    (launch_selected_program dashAB (SpawnResult.err "boom")).mode = dashAB.mode :=
  (claim_C7 dashAB entryB "boom" (by decide) (by decide)).2.1

/-- Claim C8: reloading replaces the store with the loaded one and resets the
selection to 0 on success; on failure it only sets the status text, keeping
the old store and selection. -/
theorem claim_C8 (d : Dashboard) :
    (∀ c : Config, reload_config d (Except.ok c) =
      { d with config := c, selected_index := 0,
               status_message := some "Configuration reloaded" }) ∧
    (∀ e : String, reload_config d (Except.error e) =
      { d with status_message := some ("Error reloading config: " ++ e) }) :=
  ⟨fun _ => rfl, fun _ => rfl⟩

/-- Claim C10: with `selected_index` out of range (in particular on an empty
list), the launch and delete keys leave the whole dashboard state unchanged. -/
theorem claim_C10 (d : Dashboard) (spawn : SpawnResult) (sv : Option String)
    (ld : Except String Config)
    (h : d.config.get_programs.length ≤ d.selected_index) :
    handle_normal_mode d KeyCode.enter spawn sv ld = (d, false) ∧
    handle_normal_mode d (KeyCode.char 'd') spawn sv ld = (d, false) := by
  have hnone : d.config.get_programs[d.selected_index]? = none :=
    List.getElem?_eq_none_iff.mpr h
  constructor
  · show (launch_selected_program d spawn, false) = (d, false)
    simp [launch_selected_program, hnone]
  · show (delete_selected_program d sv, false) = (d, false)
    simp [delete_selected_program, hnone]

/-- Witness for C10 on the empty-store dashboard. -/
theorem claim_C10_witness :
    handle_normal_mode dashEmpty KeyCode.enter (SpawnResult.ok "" "" true) none
      (Except.error "x") = (dashEmpty, false) :=
  (claim_C10 dashEmpty (SpawnResult.ok "" "" true) none (Except.error "x")
    (by decide)).1

/-- Claim C1: in the wizard, Enter at step 6 with any required field empty
changes nothing; Enter at step 6 with all of name, display name, command
non-empty moves through step 7, saving the built entry into the store and
returning to Browse with the form reset; Enter below step 6 just increments
the step, with no content requirement. -/
theorem claim_C1 (d : Dashboard) (sv : Option String) :
    (d.add_form.step = 6 →
      (d.add_form.name = "" ∨ d.add_form.display_name = "" ∨ d.add_form.command = "") →
      handle_add_program_mode d KeyCode.enter sv = d) ∧
    (d.add_form.step = 6 → d.add_form.name ≠ "" → d.add_form.display_name ≠ "" →
      d.add_form.command ≠ "" →
      (handle_add_program_mode d KeyCode.enter sv).mode = Mode.Normal ∧
      (handle_add_program_mode d KeyCode.enter sv).config =
        d.config.add_program (build_entry d.add_form) ∧
      (handle_add_program_mode d KeyCode.enter sv).add_form = AddProgramForm.new) ∧
    (d.add_form.step < 6 →
      handle_add_program_mode d KeyCode.enter sv =
        { d with add_form := { d.add_form with step := d.add_form.step + 1 } }) := by
  refine ⟨?_, ?_, ?_⟩
  · intro h6 hemp
    have hic : d.add_form.is_complete = false := by
      rcases hemp with h | h | h <;>
        simp [AddProgramForm.is_complete, h, isEmpty_eq_decide]
    simp only [handle_add_program_mode]
    rw [if_pos (by omega), if_neg (by simp [hic]; omega)]
  · intro h6 hn hd hc
    have hic : d.add_form.is_complete = true := by
      simp [AddProgramForm.is_complete, isEmpty_eq_false hn, isEmpty_eq_false hd,
        isEmpty_eq_false hc]
    have hres : handle_add_program_mode d KeyCode.enter sv =
        { save_new_program
            { d with add_form := { d.add_form with step := d.add_form.step + 1 } } sv
          with mode := Mode.Normal } := by
      simp only [handle_add_program_mode]
      rw [if_pos (by omega), if_pos (Or.inr hic),
        if_pos (show d.add_form.step + 1 = 7 by omega)]
    rw [hres]
    refine ⟨rfl, ?_, rfl⟩
    simp [save_new_program, build_entry]
  · intro h
    simp only [handle_add_program_mode]
    rw [if_pos (by omega), if_pos (Or.inl h),
      if_neg (show ¬ d.add_form.step + 1 = 7 by omega)]

/-- Witness for C1: the filled step-6 wizard saves and returns to Browse. -/
theorem claim_C1_witness :
    (handle_add_program_mode dashWizFull KeyCode.enter none).mode = Mode.Normal :=
  ((claim_C1 dashWizFull none).2.1 rfl (by decide) (by decide) (by decide)).1

/-- Counterexample to claim C6 as stated: at boolean step 5 with the sudo
flag on, Backspace is not a no-op — it flips `run_with_sudo` to false
(`current_value` is "y", popping gives "", and storing "" parses as not-yes). -/
theorem claim_C6_counterexample :
    dashWizSudo.add_form.run_with_sudo = true ∧
    (handle_add_program_mode dashWizSudo KeyCode.backspace none).add_form.run_with_sudo
      = false ∧
    handle_add_program_mode dashWizSudo KeyCode.backspace none ≠ dashWizSudo := by
  decide

/-- Claim C6 as amended: Backspace at steps 0-4 removes exactly the last
character of that step's text field (a no-op on an empty field); at the
boolean steps 5 and 6 it sets the boolean field to false (so a no-op only
when the flag is already false); at step 7 it changes nothing. -/
theorem claim_C6 (d : Dashboard) (sv : Option String) :
    (d.add_form.step = 0 → handle_add_program_mode d KeyCode.backspace sv =
      { d with add_form := { d.add_form with name := d.add_form.name.dropRight 1 } }) ∧
    (d.add_form.step = 1 → handle_add_program_mode d KeyCode.backspace sv =
      { d with add_form :=
          { d.add_form with display_name := d.add_form.display_name.dropRight 1 } }) ∧
    (d.add_form.step = 2 → handle_add_program_mode d KeyCode.backspace sv =
      { d with add_form := { d.add_form with command := d.add_form.command.dropRight 1 } }) ∧
    (d.add_form.step = 3 → handle_add_program_mode d KeyCode.backspace sv =
      { d with add_form := { d.add_form with args := d.add_form.args.dropRight 1 } }) ∧
    (d.add_form.step = 4 → handle_add_program_mode d KeyCode.backspace sv =
      { d with add_form :=
          { d.add_form with description := d.add_form.description.dropRight 1 } }) ∧
    (d.add_form.step = 5 → handle_add_program_mode d KeyCode.backspace sv =
      { d with add_form := { d.add_form with run_with_sudo := false } }) ∧
    (d.add_form.step = 6 → handle_add_program_mode d KeyCode.backspace sv =
      { d with add_form := { d.add_form with show_output := false } }) ∧
    (7 ≤ d.add_form.step → handle_add_program_mode d KeyCode.backspace sv = d) := by
  obtain ⟨config, sel, mode, form, status, od⟩ := d
  obtain ⟨step, nm, dn, cmd, ar, de, rws, so⟩ := form
  refine ⟨?_, ?_, ?_, ?_, ?_, ?_, ?_, ?_⟩ <;> intro h <;> dsimp only at h
  · subst h
    simp [handle_add_program_mode, AddProgramForm.current_value,
      AddProgramForm.set_current_value]
  · subst h
    simp [handle_add_program_mode, AddProgramForm.current_value,
      AddProgramForm.set_current_value]
  · subst h
    simp [handle_add_program_mode, AddProgramForm.current_value,
      AddProgramForm.set_current_value]
  · subst h
    simp [handle_add_program_mode, AddProgramForm.current_value,
      AddProgramForm.set_current_value]
  · subst h
    simp [handle_add_program_mode, AddProgramForm.current_value,
      AddProgramForm.set_current_value]
  · subst h
    cases rws <;>
      simp [handle_add_program_mode, AddProgramForm.current_value,
        AddProgramForm.set_current_value,
        (by decide : starts_with_y (("y" : String).dropRight 1) = false),
        (by decide : starts_with_y (("n" : String).dropRight 1) = false)]
  · subst h
    cases so <;>
      simp [handle_add_program_mode, AddProgramForm.current_value,
        AddProgramForm.set_current_value,
        (by decide : starts_with_y (("y" : String).dropRight 1) = false),
        (by decide : starts_with_y (("n" : String).dropRight 1) = false)]
  · simp only [handle_add_program_mode]
    rw [if_neg (by omega)]

/-- Witness for C6: Backspace at the sudo step with the flag on. -/
theorem claim_C6_witness :
    handle_add_program_mode dashWizSudo KeyCode.backspace none =
      { dashWizSudo with add_form :=
          { dashWizSudo.add_form with run_with_sudo := false } } :=
  (claim_C6 dashWizSudo none).2.2.2.2.2.1 (by decide)

lemma move_down_eq (d : Dashboard) (hn : d.config.get_programs ≠ []) :
    move_down d = { d with selected_index :=
      (d.selected_index + 1) % d.config.get_programs.length } := by
  simp only [move_down]
  rw [if_neg (by simp [List.isEmpty_iff, hn])]

lemma move_down_iterate (d : Dashboard) (k : Nat)
    (hn : d.config.get_programs ≠ [])
    (hi : d.selected_index < d.config.get_programs.length) :
    move_down^[k] d = { d with selected_index :=
      (d.selected_index + k) % d.config.get_programs.length } := by
  induction k with
  | zero =>
    simp [Nat.mod_eq_of_lt hi]
  | succ k ih =>
    rw [Function.iterate_succ_apply', ih,
      move_down_eq { d with selected_index :=
        (d.selected_index + k) % d.config.get_programs.length } hn]
    dsimp only
    rw [Nat.mod_add_mod, Nat.add_assoc]

/-- Claim C3: with a non-empty list of n programs and a valid selection,
pressing the down key n times in Browse mode returns `selected_index` to its
original value; on an empty list, down and up leave the state unchanged. -/
theorem claim_C3 (d : Dashboard) (spawn : SpawnResult) (sv : Option String)
    (ld : Except String Config)
    (hn : d.config.get_programs ≠ [])
    (hi : d.selected_index < d.config.get_programs.length) :
    ((fun s => (handle_normal_mode s KeyCode.down spawn sv ld).1)^[
        d.config.get_programs.length] d).selected_index = d.selected_index ∧
    (∀ d2 : Dashboard, d2.config.get_programs = [] →
      (handle_normal_mode d2 KeyCode.down spawn sv ld).1 = d2 ∧
      (handle_normal_mode d2 KeyCode.up spawn sv ld).1 = d2) := by
  constructor
  · have hfun : (fun s => (handle_normal_mode s KeyCode.down spawn sv ld).1) =
        move_down := rfl
    rw [hfun, move_down_iterate d _ hn hi]
    show (d.selected_index + d.config.get_programs.length) %
        d.config.get_programs.length = _
    rw [Nat.add_mod_right, Nat.mod_eq_of_lt hi]
  · intro d2 h2
    constructor
    · show move_down d2 = d2
      simp [move_down, h2]
    · show move_up d2 = d2
      simp [move_up, h2]

/-- Witness for C3: two down presses on the two-program dashboard. -/
theorem claim_C3_witness :
    ((fun s => (handle_normal_mode s KeyCode.down (SpawnResult.ok "" "" true) none
        (Except.error "x")).1)^[dashAB.config.get_programs.length] dashAB).selected_index
      = dashAB.selected_index :=
  (claim_C3 dashAB (SpawnResult.ok "" "" true) none (Except.error "x")
    (by decide) (by decide)).1

lemma filter_ne_key_length (l : List (String × ProgramEntry)) (k : String)
    (hnd : (l.map Prod.fst).Nodup) (hk : k ∈ l.map Prod.fst) :
    (l.filter (fun p => ¬ p.1 = k)).length + 1 = l.length := by
  induction l with
  | nil => simp at hk
  | cons q l ih =>
    simp only [List.map_cons, List.nodup_cons] at hnd
    obtain ⟨hq, hnd⟩ := hnd
    simp only [List.map_cons, List.mem_cons] at hk
    rcases hk with hk | hk
    · subst hk
      rw [List.filter_cons_of_neg (by simp)]
      rw [List.filter_eq_self.mpr ?hall]
      case hall =>
        intro a ha
        simp only [decide_eq_true_eq]
        intro he
        exact hq (by rw [← he]; exact List.mem_map_of_mem Prod.fst ha)
      simp
    · have hqk : ¬ q.1 = k := by
        intro he
        rw [he] at hq
        exact hq hk
      rw [List.filter_cons_of_pos (by simpa using hqk)]
      have := ih hnd hk
      simp only [List.length_cons]
      omega

lemma key_facts (c : Config) (p : ProgramEntry) (hwf : c.wf)
    (hmem : p ∈ c.programs.map Prod.snd) :
    p.name ∈ c.programs.map Prod.fst ∧ (c.remove_program p.name).1 = true := by
  obtain ⟨a, ha, hsnd⟩ := List.mem_map.mp hmem
  have hname : p.name = a.1 := by
    rw [← hsnd]
    exact hwf.2 a ha
  constructor
  · rw [hname]
    exact List.mem_map_of_mem Prod.fst ha
  · show c.programs.any (fun q => q.1 = p.name) = true
    rw [List.any_eq_true]
    exact ⟨a, ha, by simp [hname]⟩

lemma remove_program_length (c : Config) (p : ProgramEntry) (hwf : c.wf)
    (hmem : p ∈ c.programs.map Prod.snd) :
    (c.remove_program p.name).2.get_programs.length + 1 = c.get_programs.length := by
  rw [get_programs_length, get_programs_length]
  show (c.programs.filter (fun q => ¬ q.1 = p.name)).length + 1 = c.programs.length
  exact filter_ne_key_length c.programs p.name hwf.1 (key_facts c p hwf hmem).1

lemma mem_values_add_program (c : Config) (entry : ProgramEntry) :
    entry ∈ (c.add_program entry).programs.map Prod.snd := by
  unfold Config.add_program
  split
  · next hany =>
    rw [List.any_eq_true] at hany
    obtain ⟨a, ha, hk⟩ := hany
    simp only [decide_eq_true_eq] at hk
    refine List.mem_map.mpr ⟨(entry.name, entry), ?_, rfl⟩
    refine List.mem_map.mpr ⟨a, ha, ?_⟩
    simp [hk]
  · simp

/-- Counterexample to claim C4 as stated: deleting the selected last program
with the subsequent persist failing leaves `selected_index` at 1 while the
new sorted list has length 1 — the index now points past the end, so the
clamp does not hold "regardless of whether the persist succeeds or fails". -/
theorem claim_C4_counterexample :
    (delete_selected_program dashAB (some "disk full")).config.get_programs.length = 1 ∧
    (delete_selected_program dashAB (some "disk full")).selected_index = 1 ∧
    ¬ (delete_selected_program dashAB (some "disk full")).selected_index <
        (delete_selected_program dashAB (some "disk full")).config.get_programs.length := by
  decide

/-- Claim C4 as amended: deleting the selected last element clamps
`selected_index` to len-1 of the new list when the persist succeeds (staying
0 when the list becomes empty); when the persist fails, `selected_index` is
left unchanged and may point past the end. -/
theorem claim_C4 (d : Dashboard) (p : ProgramEntry)
    (hwf : d.config.wf)
    (hp : d.config.get_programs[d.selected_index]? = some p)
    (hlast : d.selected_index = d.config.get_programs.length - 1) :
    (1 < d.config.get_programs.length →
      (delete_selected_program d none).config.get_programs.length =
        d.config.get_programs.length - 1 ∧
      (delete_selected_program d none).selected_index =
        (delete_selected_program d none).config.get_programs.length - 1) ∧
    (d.config.get_programs.length = 1 →
      (delete_selected_program d none).config.get_programs.length = 0 ∧
      (delete_selected_program d none).selected_index = 0) ∧
    (∀ e, (delete_selected_program d (some e)).selected_index = d.selected_index) := by
  have hmem : p ∈ d.config.programs.map Prod.snd :=
    mem_get_programs.mp (List.getElem?_mem hp)
  have hrm : (d.config.remove_program p.name).1 = true := (key_facts _ _ hwf hmem).2
  have hlen : (d.config.remove_program p.name).2.get_programs.length + 1 =
      d.config.get_programs.length := remove_program_length _ _ hwf hmem
  refine ⟨?_, ?_, ?_⟩
  · intro h1
    have hgt : 0 < (d.config.remove_program p.name).2.get_programs.length := by omega
    have hge : (d.config.remove_program p.name).2.get_programs.length ≤
        d.selected_index := by omega
    have hres : delete_selected_program d none =
        { d with config := (d.config.remove_program p.name).2,
                 status_message := some ("Deleted: " ++ p.display_name),
                 selected_index :=
                   (d.config.remove_program p.name).2.get_programs.length - 1 } := by
      simp [delete_selected_program, hp, hrm, hgt, hge]
    rw [hres]
    constructor
    · show (d.config.remove_program p.name).2.get_programs.length = _
      omega
    · rfl
  · intro h1
    have hnc : ¬ (0 < (d.config.remove_program p.name).2.get_programs.length ∧
        (d.config.remove_program p.name).2.get_programs.length ≤
          d.selected_index) := by omega
    have hres : delete_selected_program d none =
        { d with config := (d.config.remove_program p.name).2,
                 status_message := some ("Deleted: " ++ p.display_name) } := by
      simp [delete_selected_program, hp, hrm, hnc]
    rw [hres]
    constructor
    · show (d.config.remove_program p.name).2.get_programs.length = 0
      omega
    · show d.selected_index = 0
      omega
  · intro e
    have hres : delete_selected_program d (some e) =
        { d with config := (d.config.remove_program p.name).2,
                 status_message := some ("Error saving config: " ++ e) } := by
      simp [delete_selected_program, hp, hrm]
    rw [hres]

/-- Witness for C4 (amended): successful delete of the selected last element
clamps the selection to the new last index. -/
theorem claim_C4_witness :
    (delete_selected_program dashAB none).selected_index =
      (delete_selected_program dashAB none).config.get_programs.length - 1 :=
  ((claim_C4 dashAB entryB (by decide) (by decide) (by decide)).1 (by decide)).2

/-- Claim C9: mutate-then-persist with no rollback — after a delete whose
save fails, the program is gone from the in-memory store (no remaining entry
carries its name), and after a wizard save whose persist fails, the new
entry is present in the in-memory store; both report the save error. -/
theorem claim_C9 (d : Dashboard) (p : ProgramEntry) (e : String)
    (hwf : d.config.wf)
    (hp : d.config.get_programs[d.selected_index]? = some p) :
    (∀ q ∈ (delete_selected_program d (some e)).config.get_programs,
      q.name ≠ p.name) ∧
    (delete_selected_program d (some e)).status_message =
      some ("Error saving config: " ++ e) ∧
    build_entry d.add_form ∈ (save_new_program d (some e)).config.get_programs ∧
    (save_new_program d (some e)).status_message =
      some ("Error saving config: " ++ e) := by
  have hmem : p ∈ d.config.programs.map Prod.snd :=
    mem_get_programs.mp (List.getElem?_mem hp)
  have hrm : (d.config.remove_program p.name).1 = true := (key_facts _ _ hwf hmem).2
  have hdel : delete_selected_program d (some e) =
      { d with config := (d.config.remove_program p.name).2,
               status_message := some ("Error saving config: " ++ e) } := by
    simp [delete_selected_program, hp, hrm]
  refine ⟨?_, by rw [hdel], ?_, by simp [save_new_program]⟩
  · intro q hq
    rw [hdel] at hq
    have hq2 : q ∈ (d.config.remove_program p.name).2.programs.map Prod.snd :=
      mem_get_programs.mp hq
    obtain ⟨b, hb, hsnd⟩ := List.mem_map.mp hq2
    have hb2 : b ∈ d.config.programs.filter (fun q2 => ¬ q2.1 = p.name) := hb
    have hbl : b ∈ d.config.programs ∧ ¬ b.1 = p.name := by
      have := List.mem_filter.mp hb2
      simpa using this
    have hb1 : b.2.name = b.1 := hwf.2 b hbl.1
    intro hqname
    apply hbl.2
    rw [← hb1, hsnd, hqname]
  · show build_entry d.add_form ∈
      (d.config.add_program (build_entry d.add_form)).get_programs
    exact mem_get_programs.mpr (mem_values_add_program _ _)

/-- Witness for C9: delete of `entryB` with a failing save reports the error. -/
theorem claim_C9_witness :
    (delete_selected_program dashAB (some "boom")).status_message =
      some ("Error saving config: " ++ "boom") :=
  (claim_C9 dashAB entryB "boom" (by decide) (by decide)).2.1

end RDash
